import Mathlib

/-!
Item routes (`src/routes/item.js`).

A shallow embedding of the five Express routes of the auction item API and of the
collaborators they call (the Sequelize model, the access guard, the upload handler and
the JavaScript built-ins), followed by the properties established about them.

Conventions.
* A handler is a function from the world before the request (store contents and the log
  of effects performed so far) to the world after it and the outcome of the request.
* Everything the routes do not define themselves is a field of `Env`: the theorems hold
  for every environment.
-/

namespace ItemRoutes

/-! ## Values -/

/-- JavaScript values reaching the handlers. Finite numbers are carried exactly. `obj`
stands for any object (a `Date`, an array, a nested object of a parsed query) and carries
the result of converting it to a string: `none` when that conversion throws, as for the
query `name[toString]=x`, whose `name` is an object with a `toString` that cannot be
called. -/
inductive Val where
  | undefined
  | null
  | bool (b : Bool)
  | num (q : ℚ)
  | nan
  | inf (negative : Bool)
  | str (s : String)
  | obj (asString : Option String)
  deriving DecidableEq

/-- ECMAScript `ToBoolean`. -/
def truthy : Val → Bool
  | .undefined => false
  | .null => false
  | .bool b => b
  | .num q => decide (q ≠ 0)
  | .nan => false
  | .inf _ => true
  | .str s => decide (s ≠ "")
  | .obj _ => true

/-- A plain object with string keys: `req.query`, `req.body`. -/
abbrev Fields := List (String × Val)

/-- Property read `o.k`: the value of the first entry for `k`, `undefined` when absent. -/
def Fields.get (o : Fields) (k : String) : Val :=
  (o.lookup k).getD .undefined

/-- Destructuring default `k = d`: the default applies exactly when the property is
`undefined`. -/
def withDefault (v d : Val) : Val :=
  if v = .undefined then d else v

/-- Errors that leave a route without being caught by it. -/
inductive JsError where
  | referenceError (ident : String)
  | typeError (message : String)
  | storeError (message : String)
  | uploadError (message : String)
  deriving DecidableEq

/-- The `message` property of an error, as read by the `catch` blocks. -/
def JsError.message : JsError → String
  | .referenceError ident => ident ++ " is not defined"
  | .typeError m => m
  | .storeError m => m
  | .uploadError m => m

/-- Identifier resolution against the bindings in scope; an identifier that is bound
nowhere raises `ReferenceError`. -/
def resolve (scope : List (String × Val)) (x : String) : Except JsError Val :=
  match scope.lookup x with
  | some v => .ok v
  | none => .error (.referenceError x)

/-! ## Data model -/

/-- The attributes of an item other than its identifier, as handed to `Item.create`. -/
structure ItemFields where
  name : Val
  description : Val
  starting_price : Val
  current_price : Val
  image_url : Val
  end_time : Val
  deriving DecidableEq

/-- Modelled from the spec: `models/Item` is not part of the sources; an item has a
store-assigned identifier and the six attributes of the data model. -/
structure Item where
  id : Nat
  name : Val
  description : Val
  starting_price : Val
  current_price : Val
  image_url : Val
  end_time : Val
  deriving DecidableEq

/-- The record the store builds from the fields given to `create`. -/
def Item.ofFields (id : Nat) (f : ItemFields) : Item :=
  { id := id, name := f.name, description := f.description,
    starting_price := f.starting_price, current_price := f.current_price,
    image_url := f.image_url, end_time := f.end_time }

/-- A comparison object on `current_price`: `{ [Op.gte]: a, [Op.lte]: b }`. -/
structure Range where
  gte : Option Val := none
  lte : Option Val := none
  deriving DecidableEq

/-- The `where` object built by the list handler. -/
structure Where where
  name : Option String := none
  current_price : Option Range := none
  end_time : Option Val := none
  deriving DecidableEq

/-- Object spread `{ ...r }` of a possibly undefined comparison object. -/
def spreadRange (r : Option Range) : Range :=
  r.getD {}

/-- The file record `req.file` left by the upload handler. -/
structure UploadedFile where
  path : String
  deriving DecidableEq

/-- The caller identity resolved by the access guard. -/
structure Identity where
  role : String
  deriving DecidableEq

/-- An incoming request. `credentials` is whatever the access guard inspects,
`attachment` the field name and file name of a multipart file part; `user` and `file`
are the properties that the middleware adds. -/
structure Request where
  query : Fields := []
  id : String := ""
  body : Fields := []
  credentials : Option String := none
  attachment : Option (String × String) := none
  user : Option Identity := none
  file : Option UploadedFile := none
  deriving DecidableEq

/-- Response bodies sent by the routes. -/
inductive Body where
  | item (i : Item)
  | error (message : String)
  | message (text : String)
  | page (items : List Item) (currentPage totalPages totalItems : Val)
  deriving DecidableEq

/-- An HTTP response. -/
structure Response where
  status : Nat
  body : Body
  deriving DecidableEq

/-- How a request ends: a response was sent, or an error left the route uncaught (a
rejected handler promise, or an error handed to `next`), in which case the route itself
sends nothing. -/
inductive Outcome where
  | sent (r : Response)
  | threw (e : JsError)
  deriving DecidableEq

/-- Effects on the collaborators, in the order they are performed. -/
inductive Effect where
  | findByPk (id : String)
  | findAndCountAll (filter : Where) (limit offset : Val)
  | create (fields : ItemFields)
  | save (i : Item)
  | destroy (i : Item)
  | upload (f : UploadedFile)
  deriving DecidableEq

/-- Modelled from the spec: the item store behind `models/Item`, which is not part of the
sources: the persisted records and the next identifier to assign. -/
structure Store where
  rows : List Item := []
  nextId : Nat := 1
  deriving DecidableEq

/-- The state a request runs against. -/
structure World where
  store : Store := {}
  log : List Effect := []
  deriving DecidableEq

/-- Append an effect to the log. -/
def World.record (w : World) (e : Effect) : World :=
  { w with log := w.log ++ [e] }

/-! ## Collaborators -/

/-- JavaScript built-ins used by the list handler. Those that convert their argument to
a string or to a number can throw on an object, so they return a value or an error. -/
structure JsRuntime where
  numToString : ℚ → String
  parseFloat : Val → Except JsError Val
  parseInt : Val → Except JsError Val
  newDate : Val → Except JsError Val
  sub : Val → Val → Except JsError Val
  mul : Val → Val → Except JsError Val
  div : Val → Val → Except JsError Val
  ceil : Val → Val

/-- String conversion of an interpolated value in a template literal: total on
primitives; on an object the result of its own conversion, or `TypeError`. -/
def toStr (js : JsRuntime) : Val → Except JsError String
  | .undefined => .ok "undefined"
  | .null => .ok "null"
  | .bool b => .ok (if b then "true" else "false")
  | .num q => .ok (js.numToString q)
  | .nan => .ok "NaN"
  | .inf negative => .ok (if negative then "-Infinity" else "Infinity")
  | .str s => .ok s
  | .obj (some s) => .ok s
  | .obj none => .error (.typeError "Cannot convert object to primitive value")

/-- Everything outside `routes/item.js`: the built-ins, the access guard's identity
resolution and its failure responses, the upload handler, the store's query engine, and
for each store call the message with which it fails, if it does. -/
structure Env where
  js : JsRuntime
  resolveIdentity : Request → Option Identity
  unauthenticated : Response
  forbidden : Response
  storeUpload : String → Option (String × String) → Except String (Option UploadedFile)
  select : List Item → Where → Val → Val → Nat × List Item
  findByPkFault : String → Option String
  findAndCountAllFault : Where → Val → Val → Option String
  createFault : ItemFields → Option String
  saveFault : Item → Option String
  destroyFault : Item → Option String

/-- The natural number written by a non-empty sequence of decimal digits. -/
def parseDigits (cs : List Char) : Option Nat :=
  if cs = [] then none
  else cs.foldl (fun acc c => acc.bind (fun n =>
    if c.isDigit then some (10 * n + (c.toNat - 48)) else none)) (some 0)

/-- Modelled from the spec: `findByPk(id)→record|absent` on the persisted rows; the
identifier arrives as the text of the path segment, and text that is not a number
matches no record. -/
def Store.findByPk (s : Store) (id : String) : Option Item :=
  match parseDigits id.toList with
  | some n => s.rows.find? (fun r => r.id == n)
  | none => none

/-- Modelled from the spec: `create(fields)→record` with a store-assigned identifier. -/
def Store.create (s : Store) (f : ItemFields) : Store × Item :=
  ({ rows := s.rows ++ [Item.ofFields s.nextId f], nextId := s.nextId + 1 },
    Item.ofFields s.nextId f)

/-- Modelled from the spec: `instance.save()` persists the instance over the row(s) with
its identifier. -/
def Store.save (s : Store) (i : Item) : Store :=
  { s with rows := s.rows.map (fun r => if r.id = i.id then i else r) }

/-- Modelled from the spec: `instance.destroy()` removes the row(s) with the instance's
identifier. -/
def Store.destroy (s : Store) (i : Item) : Store :=
  { s with rows := s.rows.filter (fun r => r.id != i.id) }

/-- The awaited result of `Item.findByPk(id)`: a rejection with the store's message, or
the record, or absent. -/
def lookupPk (env : Env) (s : Store) (id : String) : Except String (Option Item) :=
  match env.findByPkFault id with
  | some m => .error m
  | none => .ok (s.findByPk id)

/-! ## Express route composition -/

/-- What a middleware does: hand over to the next function, or end the request. -/
inductive Step where
  | next (w : World) (req : Request)
  | done (w : World) (o : Outcome)

/-- A middleware function. -/
abbrev Middleware := World → Request → Step

/-- A final route handler. -/
abbrev Handler := World → Request → World × Outcome

/-- Express runs the functions of a route in order; a function that does not hand over
ends the request and the functions after it are not called. -/
def runChain : List Middleware → Handler → Handler
  | [], h, w, req => h w req
  | m :: ms, h, w, req =>
    match m w req with
    | .next w1 req1 => runChain ms h w1 req1
    | .done w1 o => (w1, o)

/-- Modelled from the spec: `middleware/auth` is not part of the sources; `authenticate`
resolves the caller identity from the request or fails the request before reaching the
handler. -/
def authenticate (env : Env) : Middleware := fun w req =>
  match env.resolveIdentity req with
  | some u => .next w { req with user := some u }
  | none => .done w (.sent env.unauthenticated)

/-- Modelled from the spec: `middleware/auth` is not part of the sources;
`authorize(roles)` fails the request if the resolved identity's role is not in the given
set. -/
def authorize (env : Env) (roles : List String) : Middleware := fun w req =>
  match req.user with
  | some u => if u.role ∈ roles then .next w req else .done w (.sent env.forbidden)
  | none => .done w (.sent env.forbidden)

/-- The middleware `upload.single(field)` of multer: stores the file part under `field`
if there is one and sets `req.file`; a failure is handed to `next` as an error. -/
def uploadSingle (env : Env) (field : String) : Middleware := fun w req =>
  match env.storeUpload field req.attachment with
  | .ok (some f) => .next (w.record (.upload f)) { req with file := some f }
  | .ok none => .next w { req with file := none }
  | .error m => .done w (.threw (.uploadError m))

/-! ## The routes of `routes/item.js` -/

/-- Bindings of the module and of the handler function that hold host objects. -/
def moduleScope : List (String × Val) :=
  ["express", "Op", "Item", "authenticate", "authorize", "multer", "upload", "router",
    "exports", "require", "module", "__filename", "__dirname", "req", "res", "where"].map
    (fun x => (x, Val.obj (some x)))

/-- Bindings in scope in the body of the list handler: the six constants introduced by
the destructuring of `req.query` (line 12), then those of the enclosing function and
module. The file assigns no property of the global object, which is taken to hold only
the built-ins of the runtime; those the handler calls are the fields of `JsRuntime`. -/
def listScope (q : Fields) : List (String × Val) :=
  [ ("name", q.get "name"),
    ("starting_price", q.get "starting_price"),
    ("current_price", q.get "current_price"),
    ("end_time", q.get "end_time"),
    ("page", withDefault (q.get "page") (.num 1)),
    ("limit", withDefault (q.get "limit") (.num 10)) ] ++ moduleScope

/-- Lines 15 to 33 of the list handler: the `where` object and the offset, or the error
raised while building them. Identifiers are resolved, and conversions made, in the order
the code performs them. -/
def listQuery (env : Env) (q : Fields) : Except JsError (Where × Val × Val × Val) := do
  let scope := listScope q
  let w0 : Where := {}
  let name ← resolve scope "name"
  let w1 : Where ←
    if truthy name then do
      let text ← toStr env.js name
      pure { w0 with name := some ("%" ++ text ++ "%") }
    else pure w0
  let min_price ← resolve scope "min_price"
  let w2 : Where ←
    if truthy min_price then do
      let bound ← env.js.parseFloat min_price
      let r := spreadRange w1.current_price
      pure { w1 with current_price := some { r with gte := some bound } }
    else pure w1
  let max_price ← resolve scope "max_price"
  let w3 : Where ←
    if truthy max_price then do
      let bound ← env.js.parseFloat max_price
      let r := spreadRange w2.current_price
      pure { w2 with current_price := some { r with lte := some bound } }
    else pure w2
  let end_time ← resolve scope "end_time"
  let w4 : Where ←
    if truthy end_time then do
      let date ← env.js.newDate end_time
      pure { w3 with end_time := some date }
    else pure w3
  let page ← resolve scope "page"
  let limit ← resolve scope "limit"
  let pageMinusOne ← env.js.sub page (.num 1)
  let offset ← env.js.mul pageMinusOne limit
  pure (w4, page, limit, offset)

/-- Handler of `router.get('/')` (lines 11 to 51). An error raised before the `try` block
rejects the handler's promise; inside it, a failing `findAndCountAll`, like any other
error, is answered with 400 and the error's message. -/
def listHandler (env : Env) : Handler := fun w req =>
  match listQuery env req.query with
  | .error e => (w, .threw e)
  | .ok (filter, page, limit, offset) =>
    match env.js.parseInt limit with
    | .error e => (w, .sent ⟨400, .error e.message⟩)
    | .ok lim =>
      match env.js.parseInt offset with
      | .error e => (w, .sent ⟨400, .error e.message⟩)
      | .ok off =>
        let w1 := w.record (.findAndCountAll filter lim off)
        match env.findAndCountAllFault filter lim off with
        | some m => (w1, .sent ⟨400, .error m⟩)
        | none =>
          let (count, rows) := env.select w.store.rows filter lim off
          match env.js.parseInt page with
          | .error e => (w1, .sent ⟨400, .error e.message⟩)
          | .ok currentPage =>
            match env.js.div (.num count) limit with
            | .error e => (w1, .sent ⟨400, .error e.message⟩)
            | .ok ratio =>
              (w1, .sent ⟨200, .page rows currentPage (env.js.ceil ratio) (.num count)⟩)

/-- Handler of `router.get('/:id')` (lines 53 to 59). -/
def getHandler (env : Env) : Handler := fun w req =>
  let w1 := w.record (.findByPk req.id)
  match lookupPk env w.store req.id with
  | .error m => (w1, .threw (.storeError m))
  | .ok none => (w1, .sent ⟨404, .error "Item not found"⟩)
  | .ok (some item) => (w1, .sent ⟨200, .item item⟩)

/-- The object literal given to `Item.create` (lines 62 to 76). -/
def createFields (req : Request) : ItemFields :=
  let name := req.body.get "name"
  let description := req.body.get "description"
  let starting_price := req.body.get "starting_price"
  let end_time := req.body.get "end_time"
  let imageUrl : Val :=
    match req.file with
    | some f => .str f.path
    | none => .null
  { name := name, description := description, starting_price := starting_price,
    current_price := starting_price, image_url := imageUrl, end_time := end_time }

/-- Handler of `router.post('/')` (lines 61 to 84). -/
def createHandler (env : Env) : Handler := fun w req =>
  let fields := createFields req
  let w1 := w.record (.create fields)
  match env.createFault fields with
  | some m => (w1, .sent ⟨400, .error m⟩)
  | none =>
    let (s, item) := w.store.create fields
    ({ w1 with store := s }, .sent ⟨201, .item item⟩)

/-- The four assignments of the update handler (lines 93 to 96). -/
def assignBody (item : Item) (body : Fields) : Item :=
  { item with
    name := body.get "name",
    description := body.get "description",
    starting_price := body.get "starting_price",
    end_time := body.get "end_time" }

/-- Handler of `router.put('/:id')` (lines 86 to 102). -/
def updateHandler (env : Env) : Handler := fun w req =>
  let w1 := w.record (.findByPk req.id)
  match lookupPk env w.store req.id with
  | .error m => (w1, .threw (.storeError m))
  | .ok none => (w1, .sent ⟨404, .error "Item not found"⟩)
  | .ok (some item) =>
    let item1 := assignBody item req.body
    let w2 := w1.record (.save item1)
    match env.saveFault item1 with
    | some m => (w2, .sent ⟨400, .error m⟩)
    | none => ({ w2 with store := w.store.save item1 }, .sent ⟨200, .item item1⟩)

/-- Handler of `router.delete('/:id')` (lines 104 to 115). -/
def deleteHandler (env : Env) : Handler := fun w req =>
  let w1 := w.record (.findByPk req.id)
  match lookupPk env w.store req.id with
  | .error m => (w1, .threw (.storeError m))
  | .ok none => (w1, .sent ⟨404, .error "Item not found"⟩)
  | .ok (some item) =>
    let w2 := w1.record (.destroy item)
    match env.destroyFault item with
    | some m => (w2, .sent ⟨400, .error m⟩)
    | none => ({ w2 with store := w.store.destroy item }, .sent ⟨200, .message "Item deleted"⟩)

/-- The access guard placed before the create, update and delete handlers. -/
def guard (env : Env) : List Middleware :=
  [authenticate env, authorize env ["admin", "user"]]

/-- Route `router.get('/', ...)`. -/
def router_get_root (env : Env) : Handler :=
  runChain [] (listHandler env)

/-- Route `router.get('/:id', ...)`. -/
def router_get_id (env : Env) : Handler :=
  runChain [] (getHandler env)

/-- Route `router.post('/', authenticate, authorize(['admin', 'user']),
upload.single('image'), ...)`. -/
def router_post_root (env : Env) : Handler :=
  runChain (guard env ++ [uploadSingle env "image"]) (createHandler env)

/-- Route `router.put('/:id', authenticate, authorize(['admin', 'user']), ...)`. -/
def router_put_id (env : Env) : Handler :=
  runChain (guard env) (updateHandler env)

/-- Route `router.delete('/:id', authenticate, authorize(['admin', 'user']), ...)`. -/
def router_delete_id (env : Env) : Handler :=
  runChain (guard env) (deleteHandler env)

/-- The effects a handler adds to the log while serving a request. -/
def effectsOf (h : Handler) (w : World) (req : Request) : List Effect :=
  (h w req).1.log.drop w.log.length

/-! ## A reference environment

A concrete environment on which the routes can be evaluated. Its runtime covers
integer-valued numbers and decimal integer text, which is all the examples use. -/

/-- Numeric reading of a value in the reference runtime. -/
def toNum : Val → Option ℚ
  | .num q => some q
  | .str s =>
    match s.toList with
    | '-' :: cs => (parseDigits cs).map (fun n => -(n : ℚ))
    | cs => (parseDigits cs).map (fun n => (n : ℚ))
  | _ => none

/-- A number, or `NaN`. -/
def ofNum : Option ℚ → Val
  | some q => .num q
  | none => .nan

/-- Conversion of a value to a number in the reference runtime: `NaN` where the value
has no numeric reading, `TypeError` on an object that cannot be converted. -/
def toNumber : Val → Except JsError (Option ℚ)
  | .obj none => .error (.typeError "Cannot convert object to primitive value")
  | v => .ok (toNum v)

/-- Reference built-ins. -/
def refRuntime : JsRuntime where
  numToString := fun q => toString q.num
  parseFloat := fun v => do
    let x ← toNumber v
    pure (ofNum x)
  parseInt := fun v => do
    let x ← toNumber v
    pure (ofNum (x.map (fun q => ((if 0 ≤ q then ⌊q⌋ else ⌈q⌉ : ℤ) : ℚ))))
  newDate := fun v =>
    match v with
    | .str s => .ok (.obj (some s))
    | .obj none => .error (.typeError "Cannot convert object to primitive value")
    | _ => .ok (.obj (some "Invalid Date"))
  sub := fun a b => do
    let x ← toNumber a
    let y ← toNumber b
    pure (ofNum (do let p ← x; let q ← y; pure (p - q)))
  mul := fun a b => do
    let x ← toNumber a
    let y ← toNumber b
    pure (ofNum (do let p ← x; let q ← y; pure (p * q)))
  div := fun a b => do
    let x ← toNumber a
    let y ← toNumber b
    pure (match x, y with
      | some p, some q =>
        if q = 0 then (if p = 0 then .nan else .inf (decide (p < 0))) else .num (p / q)
      | _, _ => .nan)
  ceil := fun v =>
    match v with
    | .num q => .num ((⌈q⌉ : ℤ) : ℚ)
    | other => other

/-- Whether a row satisfies a `where` object, in the reference store engine. -/
def rowMatches (filter : Where) (r : Item) : Bool :=
  (match filter.name, r.name with
    | none, _ => true
    | some pat, .str s => decide ((pat.toList.drop 1).dropLast <:+: s.toList)
    | some _, _ => false) &&
  (match filter.current_price with
    | none => true
    | some range =>
      (match range.gte, toNum r.current_price with
        | none, _ => true
        | some b, some x => (toNum b).any (fun y => decide (y ≤ x))
        | some _, none => false) &&
      (match range.lte, toNum r.current_price with
        | none, _ => true
        | some b, some x => (toNum b).any (fun y => decide (x ≤ y))
        | some _, none => false)) &&
  (match filter.end_time, r.end_time with
    | none, _ => true
    | some (.obj (some b)), .str t => decide (¬ b.toList < t.toList)
    | some _, _ => false)

/-- Reference store engine: count of the matching rows and the requested page of them. -/
def refSelect (rows : List Item) (filter : Where) (limit offset : Val) : Nat × List Item :=
  let hits := rows.filter (rowMatches filter)
  let nat (v : Val) : Nat := ((toNum v).map (fun q => ⌊q⌋.toNat)).getD 0
  (hits.length, (hits.drop (nat offset)).take (nat limit))

/-- Validation of the reference store: an item needs a name. -/
def nameFault (name : Val) : Option String :=
  if name = .undefined ∨ name = .null then some "notNull Violation: Item.name cannot be null"
  else none

/-- Reference environment: token credentials, uploads stored under `uploads/`, a store
that rejects items without a name. -/
def refEnv : Env where
  js := refRuntime
  resolveIdentity := fun req =>
    match req.credentials with
    | some "admin-token" => some ⟨"admin"⟩
    | some "user-token" => some ⟨"user"⟩
    | some "guest-token" => some ⟨"guest"⟩
    | _ => none
  unauthenticated := ⟨401, .error "Unauthorized"⟩
  forbidden := ⟨403, .error "Forbidden"⟩
  storeUpload := fun field attachment =>
    match attachment with
    | none => .ok none
    | some (f, file) => if f = field then .ok (some ⟨"uploads/" ++ file⟩) else .error "Unexpected field"
  select := refSelect
  findByPkFault := fun _ => none
  findAndCountAllFault := fun _ _ _ => none
  createFault := fun f => nameFault f.name
  saveFault := fun i => nameFault i.name
  destroyFault := fun _ => none

/-- A reference environment whose store rejects every call with the given message. -/
def failingEnv (m : String) : Env :=
  { refEnv with
    findByPkFault := fun _ => none,
    findAndCountAllFault := fun _ _ _ => some m,
    createFault := fun _ => some m,
    saveFault := fun _ => some m,
    destroyFault := fun _ => some m }

/-- A sample lot. -/
def lot (id : Nat) (price : ℚ) : Item :=
  { id := id, name := .str "Lot", description := .null, starting_price := .num price,
    current_price := .num price, image_url := .null, end_time := .str "2025-01-01" }

/-- A store holding twelve lots, each priced 120 (between 50 and 200). -/
def twelveLots : Store :=
  { rows := (List.range 12).map (fun i => lot (i + 1) 120), nextId := 13 }

/-- Scenario A: the create payload without a file, sent by an administrator. -/
def scenarioA : Request :=
  { body := [("name", .str "Vase"), ("description", .str "Ming"),
      ("starting_price", .num 100), ("end_time", .str "2025-01-01")],
    credentials := some "admin-token" }

/-- Scenario B: the second page of five of the lots priced from 50 to 200. -/
def scenarioB : Request :=
  { query := [("min_price", .str "50"), ("max_price", .str "200"),
      ("page", .str "2"), ("limit", .str "5")] }

/-- Scenario C: an update of the identifier 999. -/
def scenarioC : Request :=
  { id := "999", body := [("name", .str "Urn")], credentials := some "user-token" }

/-- The list request `GET /?name[toString]=x`: the extended query parser yields for
`name` an object whose `toString` is text, so that it cannot be converted to a string. -/
def nameObjectRequest : Request :=
  { query := [("name", .obj none)] }

/-! ## The list route -/

/-- The identifier `name` resolves to the query's `name`. -/
theorem resolve_name (q : Fields) :
    resolve (listScope q) "name" = .ok (q.get "name") := by
  rfl

/-- The identifier `min_price` is bound nowhere in the scope of the list handler. -/
theorem resolve_min_price (q : Fields) :
    resolve (listScope q) "min_price" = .error (.referenceError "min_price") := by
  rfl

/-- Building the query never gets past the first read of `min_price` (line 21): it stops
there, or before it when the interpolation of `name` (line 18) throws. -/
theorem listQuery_of_name (env : Env) (q : Fields) :
    listQuery env q =
      if truthy (q.get "name") then
        (toStr env.js (q.get "name")).bind (fun _ => .error (.referenceError "min_price"))
      else .error (.referenceError "min_price") := by
  cases ht : truthy (q.get "name") <;>
    simp only [listQuery, bind, Except.bind, resolve_name, resolve_min_price, ht, pure,
      Except.pure]

/-- The only value whose interpolation throws is the object without a string
conversion. -/
theorem toStr_ok (js : JsRuntime) (v : Val) (hv : v ≠ .obj none) :
    ∃ s, toStr js v = .ok s := by
  cases v with
  | obj o =>
    cases o with
    | none => exact absurd rfl hv
    | some s => exact ⟨s, rfl⟩
  | _ => exact ⟨_, rfl⟩

/-- When `name` converts, building the query stops with the `ReferenceError`. -/
theorem listQuery_referenceError (env : Env) (q : Fields) (hname : q.get "name" ≠ .obj none) :
    listQuery env q = .error (.referenceError "min_price") := by
  rw [listQuery_of_name]
  obtain ⟨s, hs⟩ := toStr_ok env.js (q.get "name") hname
  rw [hs]
  cases truthy (q.get "name") <;> rfl

/-- When `name` is the object that does not convert, building the query stops with the
`TypeError` of line 18. -/
theorem listQuery_typeError (env : Env) (q : Fields) (hname : q.get "name" = .obj none) :
    listQuery env q = .error (.typeError "Cannot convert object to primitive value") := by
  rw [listQuery_of_name, hname]
  rfl

/-- Building the query always ends in one of these two errors. -/
theorem listQuery_error (env : Env) (q : Fields) :
    listQuery env q = .error (.referenceError "min_price") ∨
    listQuery env q = .error (.typeError "Cannot convert object to primitive value") := by
  by_cases hname : q.get "name" = .obj none
  · exact Or.inr (listQuery_typeError env q hname)
  · exact Or.inl (listQuery_referenceError env q hname)

/-- The list route with a `name` that converts rejects with the `ReferenceError` and
leaves the world as it was. -/
theorem router_get_root_eq (env : Env) (w : World) (req : Request)
    (hname : req.query.get "name" ≠ .obj none) :
    router_get_root env w req = (w, .threw (.referenceError "min_price")) := by
  simp only [router_get_root, runChain, listHandler, listQuery_referenceError env _ hname]

/-- The list route always rejects before its `try` block and leaves the world as it
was. -/
theorem router_get_root_threw (env : Env) (w : World) (req : Request) :
    router_get_root env w req = (w, .threw (.referenceError "min_price")) ∨
    router_get_root env w req =
      (w, .threw (.typeError "Cannot convert object to primitive value")) := by
  rcases listQuery_error env req.query with h | h
  · left
    simp only [router_get_root, runChain, listHandler, h]
  · right
    simp only [router_get_root, runChain, listHandler, h]

/-- A handler that leaves the log as it was has added no effect. -/
theorem effectsOf_nil (h : Handler) (w : World) (req : Request) (hw : (h w req).1 = w) :
    effectsOf h w req = [] := by
  simp [effectsOf, hw]

/-- The effects of a handler that appends `es` to the log are `es`. -/
theorem effectsOf_append (h : Handler) (w : World) (req : Request) (es : List Effect)
    (hw : (h w req).1.log = w.log ++ es) :
    effectsOf h w req = es := by
  simp [effectsOf, hw]

/-! ## The access guard and the store -/

/-- A caller that is not authenticated is answered by `authenticate`, whatever follows
the guard in the route. -/
theorem guard_unauthenticated (env : Env) (ms : List Middleware) (h : Handler) (w : World)
    (req : Request) (hnone : env.resolveIdentity req = none) :
    runChain (guard env ++ ms) h w req = (w, .sent env.unauthenticated) := by
  simp [guard, runChain, authenticate, hnone]

/-- A caller whose role is not allowed is answered by `authorize`, whatever follows the
guard in the route. -/
theorem guard_forbidden (env : Env) (ms : List Middleware) (h : Handler) (w : World)
    (req : Request) (u : Identity) (hsome : env.resolveIdentity req = some u)
    (hrole : u.role ∉ ["admin", "user"]) :
    runChain (guard env ++ ms) h w req = (w, .sent env.forbidden) := by
  simp only [guard, List.cons_append, List.nil_append, runChain, authenticate, hsome,
    authorize, if_neg hrole]

/-- A caller with an allowed role reaches what follows the guard, with `req.user` set. -/
theorem guard_pass (env : Env) (ms : List Middleware) (h : Handler) (w : World)
    (req : Request) (u : Identity) (hsome : env.resolveIdentity req = some u)
    (hrole : u.role ∈ ["admin", "user"]) :
    runChain (guard env ++ ms) h w req = runChain ms h w { req with user := some u } := by
  simp only [guard, List.cons_append, runChain, authenticate, hsome, authorize, if_pos hrole]
  rfl

/-- The guard either ends the request leaving the world as it was, or hands the request
over with only `req.user` changed. -/
theorem guard_cases (env : Env) (ms : List Middleware) (h : Handler) (w : World)
    (req : Request) :
    (runChain (guard env ++ ms) h w req).1 = w ∨
      ∃ u, runChain (guard env ++ ms) h w req = runChain ms h w { req with user := some u } := by
  cases hres : env.resolveIdentity req with
  | none => exact Or.inl (by rw [guard_unauthenticated env ms h w req hres])
  | some u =>
    by_cases hrole : u.role ∈ ["admin", "user"]
    · exact Or.inr ⟨u, guard_pass env ms h w req u hres hrole⟩
    · exact Or.inl (by rw [guard_forbidden env ms h w req u hres hrole])

/-- A row found under a key carries that key. -/
theorem find_id_eq (rows : List Item) (n : Nat) (item : Item)
    (h : rows.find? (fun r => r.id == n) = some item) : item.id = n := by
  have := List.find?_some h
  simpa using this

/-- After a save, the row found under the instance's key is the instance. -/
theorem find_map_save (rows : List Item) (n : Nat) (item new : Item)
    (h : rows.find? (fun r => r.id == n) = some item) (hid : new.id = n) :
    (rows.map (fun r => if r.id = new.id then new else r)).find? (fun r => r.id == n)
      = some new := by
  induction rows with
  | nil => simp at h
  | cons r rs ih =>
    by_cases hr : r.id = n
    · have hnew : (new.id == n) = true := by simpa using hid
      simp [List.find?_cons, hr, hid, hnew]
    · have hne : ¬ r.id = new.id := by rw [hid]; exact hr
      have hb : (r.id == n) = false := by simpa using hr
      have hrs : rs.find? (fun r => r.id == n) = some item := by
        rw [List.find?_cons, hb] at h
        exact h
      simp [List.find?_cons, hb, hne, ih hrs]

/-- `findByPk` after `save` of an instance that was found under the same identifier. -/
theorem findByPk_save (s : Store) (id : String) (item new : Item)
    (h : s.findByPk id = some item) (hid : new.id = item.id) :
    (s.save new).findByPk id = some new := by
  have unfold_find : ∀ t : Store, t.findByPk id =
      (match parseDigits id.toList with
        | some n => t.rows.find? (fun r => r.id == n)
        | none => none) := fun _ => rfl
  rw [unfold_find] at h ⊢
  cases hp : parseDigits id.toList with
  | none =>
    rw [hp] at h
    exact absurd h (by intro hc; cases hc)
  | some n =>
    rw [hp] at h
    have h1 : s.rows.find? (fun r => r.id == n) = some item := h
    have hn : item.id = n := find_id_eq s.rows n item h1
    exact find_map_save s.rows n item new h1 (by rw [hid, hn])

/-! ## Claims about the list route -/

/-- C10 as stated fails: for the query `name[toString]=x` the handler raises the
`TypeError` of the interpolation on line 18, before `min_price` is read, and not a
`ReferenceError`. -/
theorem list_name_object_typeError :
    router_get_root refEnv { store := twelveLots } nameObjectRequest =
      ({ store := twelveLots },
        .threw (.typeError "Cannot convert object to primitive value")) ∧
    (router_get_root refEnv { store := twelveLots } nameObjectRequest).2 ≠
      .threw (.referenceError "min_price") := by
  have h : router_get_root refEnv { store := twelveLots } nameObjectRequest =
      ({ store := twelveLots },
        .threw (.typeError "Cannot convert object to primitive value")) := by
    simp only [router_get_root, runChain, listHandler,
      listQuery_typeError refEnv nameObjectRequest.query rfl]
  rw [h]
  exact ⟨rfl, fun hc => (by cases hc)⟩

/-- C10, amended: for every list request whose `name` is absent or converts to a string,
evaluating the undeclared identifier `min_price` raises a `ReferenceError` while the
query is being built, before the `try` block. For every list request whatsoever the
route ends with an error raised before the `try` block (that one, or the `TypeError` of
the interpolation of `name`): the world is as before, `findAndCountAll` is not called,
and no response, 200 or 400 or other, is sent. -/
theorem list_raises_referenceError (env : Env) (w : World) (req : Request) :
    (req.query.get "name" ≠ .obj none →
      resolve (listScope req.query) "min_price" = .error (.referenceError "min_price") ∧
      listQuery env req.query = .error (.referenceError "min_price") ∧
      (router_get_root env w req).2 = .threw (.referenceError "min_price")) ∧
    ((router_get_root env w req).2 = .threw (.referenceError "min_price") ∨
      (router_get_root env w req).2 =
        .threw (.typeError "Cannot convert object to primitive value")) ∧
    (router_get_root env w req).1 = w ∧
    (∀ f l o, Effect.findAndCountAll f l o ∉ effectsOf (router_get_root env) w req) ∧
    (∀ r, (router_get_root env w req).2 ≠ .sent r) := by
  refine ⟨fun hname => ⟨resolve_min_price _, listQuery_referenceError env _ hname, ?_⟩,
    ?_, ?_, ?_, ?_⟩
  · rw [router_get_root_eq env w req hname]
  · rcases router_get_root_threw env w req with h | h
    · exact Or.inl (by rw [h])
    · exact Or.inr (by rw [h])
  · rcases router_get_root_threw env w req with h | h <;> rw [h]
  · intro f l o hmem
    have hw : (router_get_root env w req).1 = w := by
      rcases router_get_root_threw env w req with h | h <;> rw [h]
    rw [effectsOf_nil _ w req hw] at hmem
    cases hmem
  · intro r hr
    rcases router_get_root_threw env w req with h | h <;> rw [h] at hr <;> cases hr

/-- Witness for `list_raises_referenceError`: scenario B against the twelve lots. -/
theorem list_raises_referenceError_witness :
    scenarioB.query.get "name" ≠ .obj none ∧
    router_get_root refEnv { store := twelveLots } scenarioB =
      ({ store := twelveLots }, .threw (.referenceError "min_price")) :=
  have hname : scenarioB.query.get "name" ≠ .obj none := by decide
  have h := list_raises_referenceError refEnv { store := twelveLots } scenarioB
  ⟨hname, Prod.ext h.2.2.1 (h.1 hname).2.2⟩

/-- C4, at the claim's own example: page 2 with limit 5 over twelve stored lots. The
route sends no response at all, so in particular not the 200 response with
`currentPage = 2`, `totalPages = 3` and `totalItems = 12`. -/
theorem list_page_two_no_response (env : Env) :
    (router_get_root env { store := twelveLots }
        { query := [("page", .str "2"), ("limit", .str "5")] }).2
      = .threw (.referenceError "min_price") ∧
    ∀ items, (router_get_root env { store := twelveLots }
        { query := [("page", .str "2"), ("limit", .str "5")] }).2
      ≠ .sent ⟨200, .page items (.num 2) (.num 3) (.num 12)⟩ := by
  rw [router_get_root_eq env _ _ (by decide)]
  exact ⟨rfl, fun _ h => by cases h⟩

/-- C5, at scenario B: the store is never asked for rows, so no call with limit 5 and
offset 5 appears among the effects, and no items are returned. -/
theorem list_scenarioB_store_not_queried (env : Env) :
    (router_get_root env { store := twelveLots } scenarioB).1.log = [] ∧
    (∀ f, Effect.findAndCountAll f (.num 5) (.num 5) ∉
      (router_get_root env { store := twelveLots } scenarioB).1.log) ∧
    ∀ r, (router_get_root env { store := twelveLots } scenarioB).2 ≠ .sent r := by
  rw [router_get_root_eq env _ _ (by decide)]
  exact ⟨rfl, fun _ h => (by cases h), fun _ h => (by cases h)⟩

/-- C6, for a request with `min_price=50`: no filter reaches the store, in particular
none that bounds `current_price` from below by 50. -/
theorem list_min_price_no_filter (env : Env) (w : World) :
    listQuery env [("min_price", .str "50")] = .error (.referenceError "min_price") ∧
    (router_get_root env w { query := [("min_price", .str "50")] }).1.log = w.log ∧
    (router_get_root env w { query := [("min_price", .str "50")] }).2
      = .threw (.referenceError "min_price") := by
  rw [router_get_root_eq env _ _ (by decide)]
  exact ⟨listQuery_referenceError env _ (by decide), rfl, rfl⟩

/-- C7, for the requests with and without `min_price=50&max_price=200`: `min_price` does
not evaluate to `undefined` inside the handler, no filter, limit and offset are passed to
the store in either run, and no response is returned. -/
theorem list_price_not_undefined :
    resolve (listScope scenarioB.query) "min_price" ≠ .ok .undefined ∧
    ¬ (∃ f l o, Effect.findAndCountAll f l o ∈
        (router_get_root refEnv { store := twelveLots } scenarioB).1.log ∧
      Effect.findAndCountAll f l o ∈
        (router_get_root refEnv { store := twelveLots }
          { query := [("page", .str "2"), ("limit", .str "5")] }).1.log) ∧
    ¬ (∃ r, (router_get_root refEnv { store := twelveLots } scenarioB).2 = .sent r) := by
  rw [router_get_root_eq refEnv _ scenarioB (by decide),
    router_get_root_eq refEnv _ _ (by decide), resolve_min_price]
  refine ⟨fun h => (by cases h), ?_, ?_⟩
  · rintro ⟨f, l, o, h, _⟩
    cases h
  · rintro ⟨r, h⟩
    cases h

/-! ## Claims about create, update, delete and get-by-id -/

/-- The create handler on a request as the middleware leaves it, when the store accepts
the record. -/
theorem createHandler_ok (env : Env) (w : World) (req : Request)
    (hstore : env.createFault (createFields req) = none) :
    createHandler env w req =
      ({ store := (w.store.create (createFields req)).1,
         log := w.log ++ [.create (createFields req)] },
        .sent ⟨201, .item (Item.ofFields w.store.nextId (createFields req))⟩) := by
  simp only [createHandler, hstore, World.record, Store.create]

/-- C1: for every create request that passes the access guard and whose store create
call succeeds, the route answers 201 with the created item; the record passed to
`Item.create` (the only store call made) has `current_price` equal to the body's
`starting_price` and `image_url` equal to the uploaded file's path when a file is present
and `null` when none is. -/
theorem create_responds_201 (env : Env) (w : World) (req : Request) (u : Identity)
    (file : Option UploadedFile)
    (hauth : env.resolveIdentity req = some u) (hrole : u.role ∈ ["admin", "user"])
    (hupload : env.storeUpload "image" req.attachment = .ok file)
    (hstore : env.createFault (createFields { req with user := some u, file := file }) = none) :
    (createFields { req with user := some u, file := file }).current_price =
      req.body.get "starting_price" ∧
    (∀ f, file = some f →
      (createFields { req with user := some u, file := file }).image_url = .str f.path) ∧
    (file = none →
      (createFields { req with user := some u, file := file }).image_url = .null) ∧
    (router_post_root env w req).1.log =
      w.log ++ (file.map Effect.upload).toList ++
        [.create (createFields { req with user := some u, file := file })] ∧
    (router_post_root env w req).1.store.rows =
      w.store.rows ++
        [Item.ofFields w.store.nextId (createFields { req with user := some u, file := file })] ∧
    (router_post_root env w req).2 =
      .sent ⟨201, .item (Item.ofFields w.store.nextId
        (createFields { req with user := some u, file := file }))⟩ := by
  refine ⟨rfl, ?_, ?_, ?_⟩
  · intro f hf
    subst hf
    rfl
  · intro hf
    subst hf
    rfl
  rw [router_post_root, guard_pass env _ _ w req u hauth hrole]
  cases file with
  | none =>
    simp only [runChain, uploadSingle, hupload]
    rw [createHandler_ok env w _ hstore]
    simp [Store.create]
  | some f =>
    simp only [runChain, uploadSingle, hupload]
    rw [createHandler_ok env _ _ hstore]
    simp [Store.create, World.record]

/-- Witness for `create_responds_201`: scenario A, sent without a file, is answered 201
with `current_price = 100` and `image_url = null`; sent with a file, with the stored
file's path as `image_url`. -/
theorem create_responds_201_witness :
    (router_post_root refEnv {} scenarioA).1.log =
      [.create ⟨.str "Vase", .str "Ming", .num 100, .num 100, .null, .str "2025-01-01"⟩] ∧
    (router_post_root refEnv {} scenarioA).2 =
      .sent ⟨201, .item ⟨1, .str "Vase", .str "Ming", .num 100, .num 100, .null,
        .str "2025-01-01"⟩⟩ ∧
    (router_post_root refEnv {} { scenarioA with attachment := some ("image", "vase.png") }).2 =
      .sent ⟨201, .item ⟨1, .str "Vase", .str "Ming", .num 100, .num 100,
        .str "uploads/vase.png", .str "2025-01-01"⟩⟩ :=
  have h := create_responds_201 refEnv {} scenarioA ⟨"admin"⟩ none rfl (by decide) rfl rfl
  have hfile := create_responds_201 refEnv {}
    { scenarioA with attachment := some ("image", "vase.png") } ⟨"admin"⟩
    (some ⟨"uploads/vase.png"⟩) rfl (by decide) rfl rfl
  ⟨h.2.2.2.1, h.2.2.2.2.2, hfile.2.2.2.2.2⟩

/-- The update handler on an existing record. -/
theorem updateHandler_found (env : Env) (w : World) (req : Request) (item : Item)
    (hfault : env.findByPkFault req.id = none) (hfound : w.store.findByPk req.id = some item) :
    updateHandler env w req =
      match env.saveFault (assignBody item req.body) with
      | some m =>
        ({ w with log := w.log ++ [.findByPk req.id, .save (assignBody item req.body)] },
          .sent ⟨400, .error m⟩)
      | none =>
        ({ store := w.store.save (assignBody item req.body),
           log := w.log ++ [.findByPk req.id, .save (assignBody item req.body)] },
          .sent ⟨200, .item (assignBody item req.body)⟩) := by
  simp only [updateHandler, lookupPk, hfault, hfound, World.record]
  cases env.saveFault (assignBody item req.body) <;> simp

/-- The store after the update handler is the store before, or the store before with the
reassigned instance saved. -/
theorem updateHandler_store (env : Env) (w : World) (req : Request) (item : Item)
    (hfound : w.store.findByPk req.id = some item) :
    (updateHandler env w req).1.store = w.store ∨
      (updateHandler env w req).1.store = w.store.save (assignBody item req.body) := by
  cases hfault : env.findByPkFault req.id with
  | some m => left; simp [updateHandler, lookupPk, hfault, World.record]
  | none =>
    rw [updateHandler_found env w req item hfault hfound]
    cases env.saveFault (assignBody item req.body) with
    | some m => left; rfl
    | none => right; rfl

/-- C2: for every update request on an existing identifier and every body, the record
stored under that identifier after the request has the `current_price`, the `image_url`
and the identifier it had before; it is either the record as it was or the record with
exactly `name`, `description`, `starting_price` and `end_time` taken from the body. When
the lookup and the save succeed, the handler answers 200 with the latter. -/
theorem update_keeps_current_price_and_image_url (env : Env) (w : World) (req : Request)
    (item : Item) (hfound : w.store.findByPk req.id = some item) :
    (∃ item1 : Item,
      (router_put_id env w req).1.store.findByPk req.id = some item1 ∧
      item1.current_price = item.current_price ∧
      item1.image_url = item.image_url ∧
      item1.id = item.id ∧
      (item1 = item ∨
        item1 = { id := item.id,
                  name := req.body.get "name",
                  description := req.body.get "description",
                  starting_price := req.body.get "starting_price",
                  current_price := item.current_price,
                  image_url := item.image_url,
                  end_time := req.body.get "end_time" })) ∧
    (env.findByPkFault req.id = none →
      env.saveFault (assignBody item req.body) = none →
      (updateHandler env w req).2 =
        .sent ⟨200, .item { id := item.id,
                            name := req.body.get "name",
                            description := req.body.get "description",
                            starting_price := req.body.get "starting_price",
                            current_price := item.current_price,
                            image_url := item.image_url,
                            end_time := req.body.get "end_time" }⟩ ∧
      (updateHandler env w req).1.store.findByPk req.id = some (assignBody item req.body)) := by
  constructor
  · have hstore : (router_put_id env w req).1.store = w.store ∨
        (router_put_id env w req).1.store = w.store.save (assignBody item req.body) := by
      have hg := guard_cases env [] (updateHandler env) w req
      simp only [List.append_nil] at hg
      rcases hg with hg | ⟨u, hg⟩
      · left
        rw [router_put_id, hg]
      · rw [router_put_id, hg]
        exact updateHandler_store env w { req with user := some u } item hfound
    rcases hstore with hs | hs
    · exact ⟨item, by rw [hs]; exact hfound, rfl, rfl, rfl, Or.inl rfl⟩
    · exact ⟨assignBody item req.body,
        by rw [hs]; exact findByPk_save w.store req.id item _ hfound rfl,
        rfl, rfl, rfl, Or.inr rfl⟩
  · intro hfault hsave
    rw [updateHandler_found env w req item hfault hfound, hsave]
    exact ⟨rfl, findByPk_save w.store req.id item _ hfound rfl⟩

/-- Witness for `update_keeps_current_price_and_image_url`: an update of lot 7 that
raises its `starting_price` to 999. -/
theorem update_keeps_current_price_and_image_url_witness :
    twelveLots.findByPk "7" = some (lot 7 120) ∧
    (router_put_id refEnv { store := twelveLots }
        { id := "7", credentials := some "user-token",
          body := [("name", .str "Urn"), ("starting_price", .num 999)] }).1.store.findByPk "7"
      = some { id := 7, name := .str "Urn", description := .undefined,
               starting_price := .num 999, current_price := .num 120, image_url := .null,
               end_time := .undefined } :=
  have hfound : twelveLots.findByPk "7" = some (lot 7 120) := by decide
  have h := update_keeps_current_price_and_image_url refEnv { store := twelveLots }
    { id := "7", credentials := some "user-token",
      body := [("name", .str "Urn"), ("starting_price", .num 999)] } (lot 7 120) hfound
  ⟨hfound, (h.2 rfl rfl).2⟩

/-- C3: for every identifier under which the store holds no record, the get-by-id, update
and delete handlers each answer 404 with the body `error: 'Item not found'`; the only
effect is the lookup, so nothing is saved or destroyed and the store is as before. The
same holds of the three routes, for update and delete once the access guard is passed. -/
theorem missing_item_404 (env : Env) (w : World) (req : Request)
    (habsent : lookupPk env w.store req.id = .ok none) :
    getHandler env w req =
      ({ store := w.store, log := w.log ++ [.findByPk req.id] },
        .sent ⟨404, .error "Item not found"⟩) ∧
    updateHandler env w req =
      ({ store := w.store, log := w.log ++ [.findByPk req.id] },
        .sent ⟨404, .error "Item not found"⟩) ∧
    deleteHandler env w req =
      ({ store := w.store, log := w.log ++ [.findByPk req.id] },
        .sent ⟨404, .error "Item not found"⟩) ∧
    router_get_id env w req =
      ({ store := w.store, log := w.log ++ [.findByPk req.id] },
        .sent ⟨404, .error "Item not found"⟩) ∧
    (∀ u, env.resolveIdentity req = some u → u.role ∈ ["admin", "user"] →
      router_put_id env w req =
        ({ store := w.store, log := w.log ++ [.findByPk req.id] },
          .sent ⟨404, .error "Item not found"⟩) ∧
      router_delete_id env w req =
        ({ store := w.store, log := w.log ++ [.findByPk req.id] },
          .sent ⟨404, .error "Item not found"⟩)) := by
  have hget : getHandler env w req =
      ({ store := w.store, log := w.log ++ [.findByPk req.id] },
        .sent ⟨404, .error "Item not found"⟩) := by
    simp only [getHandler, habsent, World.record]
  have hput : ∀ r : Request, r.id = req.id → updateHandler env w r =
      ({ store := w.store, log := w.log ++ [.findByPk req.id] },
        .sent ⟨404, .error "Item not found"⟩) := by
    intro r hr
    simp only [updateHandler, hr, habsent, World.record]
  have hdel : ∀ r : Request, r.id = req.id → deleteHandler env w r =
      ({ store := w.store, log := w.log ++ [.findByPk req.id] },
        .sent ⟨404, .error "Item not found"⟩) := by
    intro r hr
    simp only [deleteHandler, hr, habsent, World.record]
  refine ⟨hget, hput req rfl, hdel req rfl, ?_, ?_⟩
  · simpa only [router_get_id, runChain] using hget
  · intro u hauth hrole
    have hp := guard_pass env [] (updateHandler env) w req u hauth hrole
    have hd := guard_pass env [] (deleteHandler env) w req u hauth hrole
    simp only [List.append_nil] at hp hd
    exact ⟨by rw [router_put_id, hp]; exact hput _ rfl,
      by rw [router_delete_id, hd]; exact hdel _ rfl⟩

/-- Witness for `missing_item_404`: scenario C, an update of identifier 999 against the
twelve lots. -/
theorem missing_item_404_witness :
    lookupPk refEnv twelveLots "999" = .ok none ∧
    router_put_id refEnv { store := twelveLots } scenarioC =
      ({ store := twelveLots, log := [.findByPk "999"] },
        .sent ⟨404, .error "Item not found"⟩) ∧
    getHandler refEnv { store := twelveLots } scenarioC =
      ({ store := twelveLots, log := [.findByPk "999"] },
        .sent ⟨404, .error "Item not found"⟩) :=
  have habsent : lookupPk refEnv twelveLots "999" = .ok none := rfl
  have h := missing_item_404 refEnv { store := twelveLots } scenarioC habsent
  ⟨habsent, (h.2.2.2.2 ⟨"user"⟩ rfl (by decide)).1, h.1⟩

/-- C9: for every request that fails authentication, or whose resolved role is neither
`admin` nor `user`, the guard answers and nothing placed after it in a route runs: on the
create route no upload is stored and `Item.create` is not called, and on the create,
update and delete routes alike the world (store and effects) is as before. -/
theorem guard_blocks_handlers (env : Env) (w : World) (req : Request)
    (hdenied : env.resolveIdentity req = none ∨
      ∃ u, env.resolveIdentity req = some u ∧ u.role ∉ ["admin", "user"]) :
    ∃ r : Response, (r = env.unauthenticated ∨ r = env.forbidden) ∧
      (∀ (ms : List Middleware) (h : Handler),
        runChain (guard env ++ ms) h w req = (w, .sent r)) ∧
      router_post_root env w req = (w, .sent r) ∧
      router_put_id env w req = (w, .sent r) ∧
      router_delete_id env w req = (w, .sent r) := by
  have key : ∃ r : Response, (r = env.unauthenticated ∨ r = env.forbidden) ∧
      ∀ (ms : List Middleware) (h : Handler),
        runChain (guard env ++ ms) h w req = (w, .sent r) := by
    rcases hdenied with hnone | ⟨u, hsome, hrole⟩
    · exact ⟨env.unauthenticated, Or.inl rfl,
        fun ms h => guard_unauthenticated env ms h w req hnone⟩
    · exact ⟨env.forbidden, Or.inr rfl,
        fun ms h => guard_forbidden env ms h w req u hsome hrole⟩
  obtain ⟨r, hr, hall⟩ := key
  refine ⟨r, hr, hall, hall _ _, ?_, ?_⟩
  · have := hall [] (updateHandler env)
    simpa only [List.append_nil, router_put_id] using this
  · have := hall [] (deleteHandler env)
    simpa only [List.append_nil, router_delete_id] using this

/-- Witness for `guard_blocks_handlers`: scenario A sent with a guest's credentials and a
file attached is refused, and neither the upload nor the record is stored. -/
theorem guard_blocks_handlers_witness :
    (refEnv.resolveIdentity
        { scenarioA with credentials := some "guest-token",
                         attachment := some ("image", "vase.png") } = none ∨
      ∃ u, refEnv.resolveIdentity
          { scenarioA with credentials := some "guest-token",
                           attachment := some ("image", "vase.png") } = some u ∧
        u.role ∉ ["admin", "user"]) ∧
    ∃ r : Response, (r = refEnv.unauthenticated ∨ r = refEnv.forbidden) ∧
      (∀ (ms : List Middleware) (h : Handler),
        runChain (guard refEnv ++ ms) h {}
          { scenarioA with credentials := some "guest-token",
                           attachment := some ("image", "vase.png") } = ({}, .sent r)) ∧
      router_post_root refEnv {}
        { scenarioA with credentials := some "guest-token",
                         attachment := some ("image", "vase.png") } = ({}, .sent r) ∧
      router_put_id refEnv {}
        { scenarioA with credentials := some "guest-token",
                         attachment := some ("image", "vase.png") } = ({}, .sent r) ∧
      router_delete_id refEnv {}
        { scenarioA with credentials := some "guest-token",
                         attachment := some ("image", "vase.png") } = ({}, .sent r) :=
  have hdenied : refEnv.resolveIdentity
        { scenarioA with credentials := some "guest-token",
                         attachment := some ("image", "vase.png") } = none ∨
      ∃ u, refEnv.resolveIdentity
          { scenarioA with credentials := some "guest-token",
                           attachment := some ("image", "vase.png") } = some u ∧
        u.role ∉ ["admin", "user"] :=
    Or.inr ⟨⟨"guest"⟩, rfl, by decide⟩
  ⟨hdenied, guard_blocks_handlers refEnv {} _ hdenied⟩

/-! ## Store failures in create, update and delete -/

/-- A failing `Item.create` is answered 400 with the store's message, and nothing is
stored. -/
theorem create_store_failure (env : Env) (w : World) (req : Request) (m : String)
    (hfail : env.createFault (createFields req) = some m) :
    createHandler env w req =
      ({ store := w.store, log := w.log ++ [.create (createFields req)] },
        .sent ⟨400, .error m⟩) := by
  simp only [createHandler, hfail, World.record]

/-- A failing `item.save()` is answered 400 with the store's message, and the store is as
before. -/
theorem update_store_failure (env : Env) (w : World) (req : Request) (item : Item)
    (m : String) (hfound : lookupPk env w.store req.id = .ok (some item))
    (hfail : env.saveFault (assignBody item req.body) = some m) :
    updateHandler env w req =
      ({ store := w.store,
         log := w.log ++ [.findByPk req.id] ++ [.save (assignBody item req.body)] },
        .sent ⟨400, .error m⟩) := by
  simp only [updateHandler, hfound, hfail, World.record]

/-- A failing `item.destroy()` is answered 400 with the store's message, and the store is
as before. -/
theorem delete_store_failure (env : Env) (w : World) (req : Request) (item : Item)
    (m : String) (hfound : lookupPk env w.store req.id = .ok (some item))
    (hfail : env.destroyFault item = some m) :
    deleteHandler env w req =
      ({ store := w.store, log := w.log ++ [.findByPk req.id] ++ [.destroy item] },
        .sent ⟨400, .error m⟩) := by
  simp only [deleteHandler, hfound, hfail, World.record]

/-- The create handler performs exactly one effect, the call to `Item.create`. -/
theorem effectsOf_createHandler (env : Env) (w : World) (req : Request) :
    effectsOf (createHandler env) w req = [.create (createFields req)] := by
  apply effectsOf_append
  cases hf : env.createFault (createFields req) <;>
    simp only [createHandler, hf, World.record, Store.create]

/-- A `save` among the effects of the update handler is the save of the reassigned
instance of a record that was found. -/
theorem save_of_updateHandler (env : Env) (w : World) (req : Request) (i : Item)
    (hmem : Effect.save i ∈ effectsOf (updateHandler env) w req) :
    ∃ item, lookupPk env w.store req.id = .ok (some item) ∧ i = assignBody item req.body := by
  cases hl : lookupPk env w.store req.id with
  | error m =>
    rw [effectsOf_append _ w req [.findByPk req.id]
      (by simp only [updateHandler, hl, World.record])] at hmem
    simp at hmem
  | ok found =>
    cases found with
    | none =>
      rw [effectsOf_append _ w req [.findByPk req.id]
        (by simp only [updateHandler, hl, World.record])] at hmem
      simp at hmem
    | some item =>
      rw [effectsOf_append _ w req [.findByPk req.id, .save (assignBody item req.body)]
        (by cases hs : env.saveFault (assignBody item req.body) <;>
          simp [updateHandler, hl, hs, World.record])] at hmem
      simp at hmem
      exact ⟨item, rfl, hmem⟩

/-- A `destroy` among the effects of the delete handler is the destruction of a record
that was found. -/
theorem destroy_of_deleteHandler (env : Env) (w : World) (req : Request) (i : Item)
    (hmem : Effect.destroy i ∈ effectsOf (deleteHandler env) w req) :
    lookupPk env w.store req.id = .ok (some i) := by
  cases hl : lookupPk env w.store req.id with
  | error m =>
    rw [effectsOf_append _ w req [.findByPk req.id]
      (by simp only [deleteHandler, hl, World.record])] at hmem
    simp at hmem
  | ok found =>
    cases found with
    | none =>
      rw [effectsOf_append _ w req [.findByPk req.id]
        (by simp only [deleteHandler, hl, World.record])] at hmem
      simp at hmem
    | some item =>
      rw [effectsOf_append _ w req [.findByPk req.id, .destroy item]
        (by cases hs : env.destroyFault item <;>
          simp [deleteHandler, hl, hs, World.record])] at hmem
      simp at hmem
      rw [hmem]

/-- C8: for each of the list, create, update and delete handlers, whenever the store call
it makes (`findAndCountAll`, `create`, `save`, `destroy`) fails with message `m`, the
handler answers 400 with the body `error: m`, the message passed through as it is. The
list handler never gets to make its call, so for it there is no such case. -/
theorem store_failure_answers_400 (env : Env) (w : World) (req : Request) (m : String) :
    (∀ f l o, Effect.findAndCountAll f l o ∈ effectsOf (listHandler env) w req →
      env.findAndCountAllFault f l o = some m →
      (listHandler env w req).2 = .sent ⟨400, .error m⟩) ∧
    (∀ f, Effect.create f ∈ effectsOf (createHandler env) w req →
      env.createFault f = some m →
      (createHandler env w req).2 = .sent ⟨400, .error m⟩) ∧
    (∀ i, Effect.save i ∈ effectsOf (updateHandler env) w req →
      env.saveFault i = some m →
      (updateHandler env w req).2 = .sent ⟨400, .error m⟩) ∧
    (∀ i, Effect.destroy i ∈ effectsOf (deleteHandler env) w req →
      env.destroyFault i = some m →
      (deleteHandler env w req).2 = .sent ⟨400, .error m⟩) := by
  refine ⟨?_, ?_, ?_, ?_⟩
  · intro f l o hmem _
    have hw : (listHandler env w req).1 = w := by
      rcases listQuery_error env req.query with h | h <;> simp only [listHandler, h]
    rw [effectsOf_nil _ w req hw] at hmem
    cases hmem
  · intro f hmem hfail
    rw [effectsOf_createHandler, List.mem_singleton] at hmem
    have hf : f = createFields req := by
      cases hmem
      rfl
    rw [hf] at hfail
    rw [create_store_failure env w req m hfail]
  · intro i hmem hfail
    obtain ⟨item, hfound, hi⟩ := save_of_updateHandler env w req i hmem
    rw [hi] at hfail
    rw [update_store_failure env w req item m hfound hfail]
  · intro i hmem hfail
    have hfound := destroy_of_deleteHandler env w req i hmem
    rw [delete_store_failure env w req i m hfound hfail]

/-- Witness for `store_failure_answers_400`: against a store that rejects every call
with `SequelizeDatabaseError`, the create of scenario A, an update of lot 7 and a delete
of lot 7 are each answered 400 with that message. -/
theorem store_failure_answers_400_witness :
    (createHandler (failingEnv "SequelizeDatabaseError") {} scenarioA).2 =
      .sent ⟨400, .error "SequelizeDatabaseError"⟩ ∧
    (updateHandler (failingEnv "SequelizeDatabaseError") { store := twelveLots }
        { id := "7", body := [("name", .str "Urn")] }).2 =
      .sent ⟨400, .error "SequelizeDatabaseError"⟩ ∧
    (deleteHandler (failingEnv "SequelizeDatabaseError") { store := twelveLots }
        { id := "7" }).2 =
      .sent ⟨400, .error "SequelizeDatabaseError"⟩ :=
  ⟨(store_failure_answers_400 (failingEnv "SequelizeDatabaseError") {} scenarioA
      "SequelizeDatabaseError").2.1 (createFields scenarioA) (by decide) rfl,
    (store_failure_answers_400 (failingEnv "SequelizeDatabaseError") { store := twelveLots }
      { id := "7", body := [("name", .str "Urn")] } "SequelizeDatabaseError").2.2.1
      (assignBody (lot 7 120) [("name", .str "Urn")]) (by decide) rfl,
    (store_failure_answers_400 (failingEnv "SequelizeDatabaseError") { store := twelveLots }
      { id := "7" } "SequelizeDatabaseError").2.2.2 (lot 7 120) (by decide) rfl⟩

end ItemRoutes
